import Mathlib

/-!
# Verification of the lumina-theme color-derivation pipeline

Shallow embedding of the lumina-theme repository's core data and
operations:

* `src/src/constants/index.ts` — theme preset data (`RAW_THEME_DATA`),
  slider generators (`SLIDER_GENERATORS`), color groups (`COLOR_GROUPS`),
  tab and slider configuration (`SLIDER_CONFIGS`);
* `src/src/components/SyntaxHighlighter.tsx` — code examples and the
  language-fallback logic of the syntax preview.

The color-math utilities (`hslToRgb`, the gradient generators) and the
palette derivation live in `src/utils/colorUtils.ts` and the theme
manager, which are not part of the source tree given here; they are
modelled from the specification (marked `Modelled from the spec:` below).

Numbers are modelled as rationals (`ℚ`): JavaScript numeric arithmetic
on the small slider values involved is exact.
-/

namespace Lumina

/-! ## Color math (modelled from the spec) -/

/-- Clamp a value into the interval `[lo, hi]`. -/
def clamp (lo hi x : ℚ) : ℚ := max lo (min hi x)

/-- Modelled from the spec: `hslToRgb` in `src/utils/colorUtils.ts` (not
under `src/`) normalizes hue modulo 360 before converting.  `normHue h`
is the representative of `h` modulo 360 lying in `[0, 360)`. -/
def normHue (h : ℚ) : ℚ := h - 360 * (⌊h / 360⌋ : ℚ)

/-- Saturation or lightness percentage, clamped to `[0,100]` and scaled
to `[0,1]`. -/
def unit01 (v : ℚ) : ℚ := clamp 0 100 v / 100

/-- Chroma of the standard HSL→RGB transform. -/
def hslC (s l : ℚ) : ℚ := (1 - |2 * unit01 l - 1|) * unit01 s

/-- Normalized hue divided into sextants. -/
def hslHp (h : ℚ) : ℚ := normHue h / 60

/-- Second-largest RGB component of the standard HSL→RGB transform. -/
def hslX (h s l : ℚ) : ℚ :=
  hslC s l * (1 - |hslHp h - 2 * (⌊hslHp h / 2⌋ : ℚ) - 1|)

/-- Lightness match term `m = l - c/2` of the standard transform. -/
def hslM (s l : ℚ) : ℚ := unit01 l - hslC s l / 2

/-- Modelled from the spec: the standard HSL→RGB transform (the body of
`hslToRgb` in `src/utils/colorUtils.ts`, not under `src/`), producing
the three RGB channels in `[0,1]`.  Hue is normalized modulo 360 and
saturation/lightness are clamped to `[0,100]` first. -/
def hslChannels (h s l : ℚ) : ℚ × ℚ × ℚ :=
  if hslHp h < 1 then (hslC s l + hslM s l, hslX h s l + hslM s l, hslM s l)
  else if hslHp h < 2 then (hslX h s l + hslM s l, hslC s l + hslM s l, hslM s l)
  else if hslHp h < 3 then (hslM s l, hslC s l + hslM s l, hslX h s l + hslM s l)
  else if hslHp h < 4 then (hslM s l, hslX h s l + hslM s l, hslC s l + hslM s l)
  else if hslHp h < 5 then (hslX h s l + hslM s l, hslM s l, hslC s l + hslM s l)
  else (hslC s l + hslM s l, hslM s l, hslX h s l + hslM s l)

/-- JavaScript `Math.round` on a nonnegative value: floor of `x + 1/2`. -/
def jsRound (x : ℚ) : ℤ := ⌊x + 1 / 2⌋

/-- An RGB channel in `[0,1]` scaled to a byte `0..255`. -/
def byteOf (x : ℚ) : ℕ := (jsRound (255 * x)).toNat

/-- Two lowercase hexadecimal digits of a byte. -/
def hexByte (n : ℕ) : List Char := [Nat.digitChar (n / 16), Nat.digitChar (n % 16)]

/-- Modelled from the spec: `hslToRgb` of `src/utils/colorUtils.ts` (not
under `src/`): convert an HSL triple to a `#rrggbb` hex string, with hue
normalized modulo 360 and saturation/lightness clamped to `[0,100]`
before the standard conversion; total, with no error path. -/
def hslToRgb (h s l : ℚ) : String :=
  String.mk ('#' :: (hexByte (byteOf (hslChannels h s l).1)
    ++ hexByte (byteOf (hslChannels h s l).2.1)
    ++ hexByte (byteOf (hslChannels h s l).2.2)))

/-- A lowercase hexadecimal digit. -/
def isHexDigitChar (c : Char) : Bool :=
  (('0' ≤ c) && (c ≤ '9')) || (('a' ≤ c) && (c ≤ 'f'))

/-- A valid hex color string: `#` followed by six hex digits. -/
def isValidHexColor (s : String) : Bool :=
  match s.data with
  | '#' :: rest => rest.length == 6 && rest.all isHexDigitChar
  | _ => false

/-! ### Basic lemmas about the color math -/

theorem le_clamp (lo hi x : ℚ) : lo ≤ clamp lo hi x := le_max_left _ _

theorem clamp_le (lo hi x : ℚ) (h : lo ≤ hi) : clamp lo hi x ≤ hi :=
  max_le h (min_le_left _ _)

theorem clamp_eq_self {lo hi x : ℚ} (h1 : lo ≤ x) (h2 : x ≤ hi) :
    clamp lo hi x = x := by
  unfold clamp
  rw [min_eq_right h2, max_eq_right h1]

theorem clamp_idem (lo hi x : ℚ) (h : lo ≤ hi) :
    clamp lo hi (clamp lo hi x) = clamp lo hi x :=
  clamp_eq_self (le_clamp lo hi x) (clamp_le lo hi x h)

theorem normHue_nonneg (h : ℚ) : 0 ≤ normHue h := by
  have h1 : (⌊h / 360⌋ : ℚ) ≤ h / 360 := Int.floor_le _
  have h2 : (360 : ℚ) * (h / 360) = h := by field_simp
  have h3 := mul_le_mul_of_nonneg_left h1 (by norm_num : (0:ℚ) ≤ 360)
  unfold normHue
  linarith

theorem normHue_lt (h : ℚ) : normHue h < 360 := by
  have h1 : h / 360 < (⌊h / 360⌋ : ℚ) + 1 := Int.lt_floor_add_one _
  have h2 : (360 : ℚ) * (h / 360) = h := by field_simp
  have h3 := mul_lt_mul_of_pos_left h1 (by norm_num : (0:ℚ) < 360)
  unfold normHue
  linarith

theorem normHue_eq_self {h : ℚ} (h0 : 0 ≤ h) (h1 : h < 360) : normHue h = h := by
  have hf : ⌊h / 360⌋ = 0 := by
    rw [Int.floor_eq_zero_iff, Set.mem_Ico]
    exact ⟨div_nonneg h0 (by norm_num), (div_lt_one (by norm_num)).mpr h1⟩
  unfold normHue
  rw [hf]
  push_cast
  ring

theorem normHue_idem (h : ℚ) : normHue (normHue h) = normHue h :=
  normHue_eq_self (normHue_nonneg h) (normHue_lt h)

theorem normHue_add_intMul (h : ℚ) (k : ℤ) : normHue (h + 360 * k) = normHue h := by
  unfold normHue
  have h2 : (h + 360 * (k : ℚ)) / 360 = h / 360 + k := by
    field_simp
    ring
  rw [h2, Int.floor_add_int]
  push_cast
  ring

theorem normHue_normHue_add (x d : ℚ) : normHue (normHue x + d) = normHue (x + d) := by
  have h1 : normHue x + d = (x + d) + 360 * ((-⌊x / 360⌋ : ℤ) : ℚ) := by
    unfold normHue
    push_cast
    ring
  rw [h1, normHue_add_intMul]

theorem unit01_nonneg (v : ℚ) : 0 ≤ unit01 v := by
  unfold unit01
  have := le_clamp 0 100 v
  positivity

theorem unit01_le_one (v : ℚ) : unit01 v ≤ 1 := by
  unfold unit01
  rw [div_le_one (by norm_num)]
  exact clamp_le 0 100 v (by norm_num)

theorem unit01_clamp (v : ℚ) : unit01 (clamp 0 100 v) = unit01 v := by
  unfold unit01
  rw [clamp_idem 0 100 v (by norm_num)]

theorem abs_two_unit01_sub_one_le (l : ℚ) : |2 * unit01 l - 1| ≤ 1 := by
  have h0 := unit01_nonneg l
  have h1 := unit01_le_one l
  rw [abs_le]
  constructor <;> linarith

theorem hslC_nonneg (s l : ℚ) : 0 ≤ hslC s l := by
  unfold hslC
  have := abs_two_unit01_sub_one_le l
  have := unit01_nonneg s
  nlinarith

theorem hslC_le (s l : ℚ) : hslC s l ≤ 1 - |2 * unit01 l - 1| := by
  unfold hslC
  have h1 : 0 ≤ 1 - |2 * unit01 l - 1| := by
    have := abs_two_unit01_sub_one_le l
    linarith
  exact mul_le_of_le_one_right h1 (unit01_le_one s)

theorem fract2_nonneg (y : ℚ) : 0 ≤ y - 2 * (⌊y / 2⌋ : ℚ) := by
  have h1 : (⌊y / 2⌋ : ℚ) ≤ y / 2 := Int.floor_le _
  have h2 : (2 : ℚ) * (y / 2) = y := by field_simp
  have h3 := mul_le_mul_of_nonneg_left h1 (by norm_num : (0:ℚ) ≤ 2)
  linarith

theorem fract2_lt_two (y : ℚ) : y - 2 * (⌊y / 2⌋ : ℚ) < 2 := by
  have h1 : y / 2 < (⌊y / 2⌋ : ℚ) + 1 := Int.lt_floor_add_one _
  have h2 : (2 : ℚ) * (y / 2) = y := by field_simp
  have h3 := mul_lt_mul_of_pos_left h1 (by norm_num : (0:ℚ) < 2)
  linarith

theorem hslX_nonneg (h s l : ℚ) : 0 ≤ hslX h s l := by
  unfold hslX
  have ht0 := fract2_nonneg (hslHp h)
  have ht2 := fract2_lt_two (hslHp h)
  have habs : |hslHp h - 2 * (⌊hslHp h / 2⌋ : ℚ) - 1| ≤ 1 := by
    rw [abs_le]
    constructor <;> linarith
  have := hslC_nonneg s l
  nlinarith

theorem hslX_le_hslC (h s l : ℚ) : hslX h s l ≤ hslC s l := by
  unfold hslX
  have habs : 0 ≤ |hslHp h - 2 * (⌊hslHp h / 2⌋ : ℚ) - 1| := abs_nonneg _
  exact mul_le_of_le_one_right (hslC_nonneg s l) (by linarith)

theorem hslM_nonneg (s l : ℚ) : 0 ≤ hslM s l := by
  unfold hslM
  have h1 : 1 - 2 * unit01 l ≤ |2 * unit01 l - 1| := by
    rw [abs_sub_comm]
    exact le_abs_self _
  have h2 := hslC_le s l
  linarith

theorem hslC_add_hslM_le_one (s l : ℚ) : hslC s l + hslM s l ≤ 1 := by
  unfold hslM
  have h1 : 2 * unit01 l - 1 ≤ |2 * unit01 l - 1| := le_abs_self _
  have h2 := hslC_le s l
  linarith

theorem hslChannels_mem (h s l : ℚ) :
    (0 ≤ (hslChannels h s l).1 ∧ (hslChannels h s l).1 ≤ 1) ∧
    (0 ≤ (hslChannels h s l).2.1 ∧ (hslChannels h s l).2.1 ≤ 1) ∧
    (0 ≤ (hslChannels h s l).2.2 ∧ (hslChannels h s l).2.2 ≤ 1) := by
  have hc := hslC_nonneg s l
  have hx := hslX_nonneg h s l
  have hxc := hslX_le_hslC h s l
  have hm := hslM_nonneg s l
  have hcm := hslC_add_hslM_le_one s l
  unfold hslChannels
  split_ifs <;> refine ⟨⟨?_, ?_⟩, ⟨?_, ?_⟩, ?_, ?_⟩ <;> dsimp only <;> linarith

theorem byteOf_le (x : ℚ) (h0 : 0 ≤ x) (h1 : x ≤ 1) : byteOf x ≤ 255 := by
  unfold byteOf jsRound
  have hlt : ⌊255 * x + 1 / 2⌋ < 256 := by
    rw [Int.floor_lt]
    push_cast
    linarith
  omega

theorem digitChar_hexDigit : ∀ n : ℕ, n < 16 → isHexDigitChar (Nat.digitChar n) = true := by
  decide

theorem hexByte_all (n : ℕ) (h : n ≤ 255) :
    ∀ c ∈ hexByte n, isHexDigitChar c = true := by
  intro c hc
  have h1 : n / 16 < 16 := by omega
  have h2 : n % 16 < 16 := by omega
  simp only [hexByte, List.mem_cons, List.not_mem_nil, or_false] at hc
  rcases hc with rfl | rfl
  · exact digitChar_hexDigit _ h1
  · exact digitChar_hexDigit _ h2

theorem hslToRgb_valid (h s l : ℚ) : isValidHexColor (hslToRgb h s l) = true := by
  obtain ⟨⟨r0, r1⟩, ⟨g0, g1⟩, b0, b1⟩ := hslChannels_mem h s l
  have hr := byteOf_le _ r0 r1
  have hg := byteOf_le _ g0 g1
  have hb := byteOf_le _ b0 b1
  unfold hslToRgb isValidHexColor
  simp only [Bool.and_eq_true, beq_iff_eq]
  refine ⟨by simp [hexByte], ?_⟩
  rw [List.all_eq_true]
  intro c hc
  rcases List.mem_append.mp hc with hc1 | hc2
  · rcases List.mem_append.mp hc1 with hc3 | hc4
    · exact hexByte_all _ hr c hc3
    · exact hexByte_all _ hg c hc4
  · exact hexByte_all _ hb c hc2

/-! ## Theme parameters and slider gradient generators -/

/-- The live theme parameters (spec §3): background hue/saturation/
lightness, accent hue offset/saturation/lightness, comment lightness. -/
structure ThemeParameters where
  bgHue : ℚ
  bgSat : ℚ
  bgLight : ℚ
  accentHue : ℚ
  accentSat : ℚ
  accentLight : ℚ
  commentLight : ℚ
deriving DecidableEq

/-- A valid parameter set: every field within its documented bound
(spec §3: hue in `[0,360)`, saturation/lightness in `[0,100]`, accent
hue a signed offset in `[-180,180]`). -/
def ValidParams (p : ThemeParameters) : Prop :=
  0 ≤ p.bgHue ∧ p.bgHue < 360 ∧ 0 ≤ p.bgSat ∧ p.bgSat ≤ 100 ∧
  0 ≤ p.bgLight ∧ p.bgLight ≤ 100 ∧
  -180 ≤ p.accentHue ∧ p.accentHue ≤ 180 ∧
  0 ≤ p.accentSat ∧ p.accentSat ≤ 100 ∧
  0 ≤ p.accentLight ∧ p.accentLight ≤ 100 ∧
  0 ≤ p.commentLight ∧ p.commentLight ≤ 100

instance (p : ThemeParameters) : Decidable (ValidParams p) := by
  unfold ValidParams
  infer_instance

/-- JavaScript `a || b` on numbers: `b` when `a` is falsy (zero), else `a`. -/
def jsOr (a b : ℚ) : ℚ := if a = 0 then b else a

/-- JavaScript truncation toward zero. -/
def jsTrunc (x : ℚ) : ℤ := if 0 ≤ x then ⌊x⌋ else ⌈x⌉

/-- JavaScript `%`: remainder with the sign of the dividend. -/
def jsMod (a b : ℚ) : ℚ := a - b * (jsTrunc (a / b) : ℚ)

theorem jsMod_eq_normHue {a : ℚ} (ha : 0 ≤ a) : jsMod a 360 = normHue a := by
  unfold jsMod jsTrunc normHue
  rw [if_pos (div_nonneg ha (by norm_num))]

/-- The lightness sample points of a lightness gradient, spanning `[0,100]`. -/
def lightnessSteps : List ℚ := [0, 10, 20, 30, 40, 50, 60, 70, 80, 90, 100]

/-- Modelled from the spec: `generateLightnessGradient` of
`src/utils/colorUtils.ts` (not under `src/`): an ordered sequence of
swatches spanning the lightness range `[0,100]` at the given hue and
saturation (spec §4.2). -/
def generateLightnessGradient (h s : ℚ) : List String :=
  lightnessSteps.map (fun l => hslToRgb h s l)

/-- The `SLIDER_GENERATORS.accentLight.gradient` entry of
`src/src/constants/index.ts` (lines 176–181): the lightness gradient at
`accentHue = (0 + (params.accentHue || 0) + 360) % 360` and saturation
`params.accentSat || 70`. -/
def sliderGradientAccentLight (params : ThemeParameters) : List String :=
  generateLightnessGradient (jsMod (0 + jsOr params.accentHue 0 + 360) 360)
    (jsOr params.accentSat 70)

/-- The `SLIDER_GENERATORS.commentLight.gradient` entry of
`src/src/constants/index.ts` (lines 182–188): the lightness gradient at
saturation 15 and hue `((params.bgHue || 0) + (isLight ? 180 : 0) + 360) % 360`,
where `isLight` is `(params.bgLight || 50) > 50`. -/
def sliderGradientCommentLight (params : ThemeParameters) : List String :=
  generateLightnessGradient
    (jsMod (jsOr params.bgHue 0 + (if 50 < jsOr params.bgLight 50 then 180 else 0) + 360) 360)
    15

/-! ## Palette derivation -/

/-- The 24 Base24 palette slots, `base00` .. `base17`. -/
inductive PaletteSlot where
  | base00 | base01 | base02 | base03 | base04 | base05 | base06 | base07
  | base08 | base09 | base0A | base0B | base0C | base0D | base0E | base0F
  | base10 | base11 | base12 | base13 | base14 | base15 | base16 | base17
deriving DecidableEq

/-- The Base24 key string of a slot, as used in `COLOR_GROUPS` of
`src/src/constants/index.ts`. -/
def slotKey : PaletteSlot → String
  | .base00 => "base00" | .base01 => "base01" | .base02 => "base02" | .base03 => "base03"
  | .base04 => "base04" | .base05 => "base05" | .base06 => "base06" | .base07 => "base07"
  | .base08 => "base08" | .base09 => "base09" | .base0A => "base0A" | .base0B => "base0B"
  | .base0C => "base0C" | .base0D => "base0D" | .base0E => "base0E" | .base0F => "base0F"
  | .base10 => "base10" | .base11 => "base11" | .base12 => "base12" | .base13 => "base13"
  | .base14 => "base14" | .base15 => "base15" | .base16 => "base16" | .base17 => "base17"

/-- The accent slots `base08`–`base17` (accent and muted-accent colors);
the remaining slots `base00`–`base07` are background/text slots. -/
def isAccentSlot : PaletteSlot → Bool
  | .base00 | .base01 | .base02 | .base03
  | .base04 | .base05 | .base06 | .base07 => false
  | _ => true

/-- All 24 slots in order. -/
def allSlots : List PaletteSlot :=
  [.base00, .base01, .base02, .base03, .base04, .base05, .base06, .base07,
   .base08, .base09, .base0A, .base0B, .base0C, .base0D, .base0E, .base0F,
   .base10, .base11, .base12, .base13, .base14, .base15, .base16, .base17]

/-- Modelled from the spec: the per-slot HSL assignment of the palette
derivation (the theme manager, not under `src/`).  Spec §4.3: fixed hue
rotations and lightness offsets per semantic role.  Background and
surface slots (`base00`–`base02`) use the background hue with stepped
lightness; the comment slot (`base03`) uses the comment hue (background
hue rotated 180° on a light background, as in
`SLIDER_GENERATORS.commentLight`) at low saturation and the comment
lightness; text slots (`base04`–`base07`) use the background hue with
contrasting lightness; accent slots (`base08`–`base0F`) use fixed
rainbow base hues rotated by the `accentHue` offset at the accent
saturation/lightness; muted accent slots (`base10`–`base17`) use the
same rotated hues at reduced saturation and raised lightness. -/
def slotHSL (p : ThemeParameters) (s : PaletteSlot) : ℚ × ℚ × ℚ :=
  match s with
  | .base00 => (p.bgHue, p.bgSat, p.bgLight)
  | .base01 => (p.bgHue, p.bgSat, p.bgLight + 4)
  | .base02 => (p.bgHue, p.bgSat, p.bgLight + 8)
  | .base03 => (if 50 < p.bgLight then normHue (p.bgHue + 180) else p.bgHue, 15,
      p.commentLight)
  | .base04 => (p.bgHue, p.bgSat / 2, if 50 < p.bgLight then 35 else 65)
  | .base05 => (p.bgHue, p.bgSat / 2, if 50 < p.bgLight then 20 else 80)
  | .base06 => (p.bgHue, p.bgSat / 2, if 50 < p.bgLight then 10 else 90)
  | .base07 => (p.bgHue, p.bgSat / 2, if 50 < p.bgLight then 5 else 95)
  | .base08 => (normHue (0 + p.accentHue), p.accentSat, p.accentLight)
  | .base09 => (normHue (30 + p.accentHue), p.accentSat, p.accentLight)
  | .base0A => (normHue (60 + p.accentHue), p.accentSat, p.accentLight)
  | .base0B => (normHue (120 + p.accentHue), p.accentSat, p.accentLight)
  | .base0C => (normHue (180 + p.accentHue), p.accentSat, p.accentLight)
  | .base0D => (normHue (210 + p.accentHue), p.accentSat, p.accentLight)
  | .base0E => (normHue (270 + p.accentHue), p.accentSat, p.accentLight)
  | .base0F => (normHue (330 + p.accentHue), p.accentSat, p.accentLight)
  | .base10 => (normHue (0 + p.accentHue), p.accentSat / 2, p.accentLight + 10)
  | .base11 => (normHue (30 + p.accentHue), p.accentSat / 2, p.accentLight + 10)
  | .base12 => (normHue (60 + p.accentHue), p.accentSat / 2, p.accentLight + 10)
  | .base13 => (normHue (120 + p.accentHue), p.accentSat / 2, p.accentLight + 10)
  | .base14 => (normHue (180 + p.accentHue), p.accentSat / 2, p.accentLight + 10)
  | .base15 => (normHue (210 + p.accentHue), p.accentSat / 2, p.accentLight + 10)
  | .base16 => (normHue (270 + p.accentHue), p.accentSat / 2, p.accentLight + 10)
  | .base17 => (normHue (330 + p.accentHue), p.accentSat / 2, p.accentLight + 10)

/-- The hex color of one slot: `hslToRgb` applied to the slot's HSL. -/
def paletteColor (p : ThemeParameters) (s : PaletteSlot) : String :=
  hslToRgb (slotHSL p s).1 (slotHSL p s).2.1 (slotHSL p s).2.2

/-- Modelled from the spec: `derivePalette` (spec §4.3, not under
`src/`): given ThemeParameters, deterministically produce all 24 Base24
slots as a slot-to-hex mapping. -/
def derivePalette (p : ThemeParameters) : List (PaletteSlot × String) :=
  allSlots.map (fun s => (s, paletteColor p s))

/-- `derivePalette` computed over an arbitrary slot order instead of the
canonical one (for the no-ordering-dependency property). -/
def derivePaletteOn (order : List PaletteSlot) (p : ThemeParameters) :
    List (PaletteSlot × String) :=
  order.map (fun s => (s, paletteColor p s))

/-- `COLOR_GROUPS` of `src/src/constants/index.ts` (lines 191–222): the
24 slot keys with display names, grouped as main/accent/muted. -/
def COLOR_GROUPS : List (String × List (String × String)) :=
  [("main",
    [("base00", "Background"), ("base01", "Alt Background"),
     ("base02", "Selection"), ("base03", "Comments"),
     ("base04", "Secondary Text"), ("base05", "Main Text"),
     ("base06", "Light Surface"), ("base07", "Light Accent")]),
   ("accent",
    [("base08", "Red"), ("base09", "Orange"), ("base0A", "Yellow"),
     ("base0B", "Green"), ("base0C", "Cyan"), ("base0D", "Blue"),
     ("base0E", "Purple"), ("base0F", "Pink")]),
   ("muted",
    [("base10", "Muted Red"), ("base11", "Muted Orange"),
     ("base12", "Muted Yellow"), ("base13", "Muted Green"),
     ("base14", "Muted Cyan"), ("base15", "Muted Blue"),
     ("base16", "Muted Purple"), ("base17", "Muted Pink")])]

/-! ## Theme presets (`RAW_THEME_DATA` of `src/src/constants/index.ts`) -/

/-- The four theme keys. -/
inductive ThemeKey where
  | midnight | twilight | dawn | noon
deriving DecidableEq

/-- The three flavor keys. -/
inductive FlavorKey where
  | muted | balanced | bold
deriving DecidableEq

/-- A flavor's accent/comment parameters. -/
structure FlavorParams where
  accentHue : ℚ
  accentSat : ℚ
  accentLight : ℚ
  commentLight : ℚ
deriving DecidableEq

/-- One theme preset: descriptive strings, base background parameters,
and three flavor variants. -/
structure ThemeData where
  name : String
  tagline : String
  inspirations : String
  bgHue : ℚ
  bgSat : ℚ
  bgLight : ℚ
  muted : FlavorParams
  balanced : FlavorParams
  bold : FlavorParams
deriving DecidableEq

/-- `RAW_THEME_DATA` of `src/src/constants/index.ts` (lines 11–124). -/
def RAW_THEME_DATA : ThemeKey → ThemeData
  | .midnight =>
    { name := "Lumina Midnight"
      tagline := "Deep darkness with electric neon accents"
      inspirations := "City lights, dark nights, energy, excitement, neon signs, nightlife"
      bgHue := 270, bgSat := 25, bgLight := 6
      muted := ⟨0, 85, 75, 55⟩
      balanced := ⟨0, 95, 60, 55⟩
      bold := ⟨0, 100, 50, 60⟩ }
  | .twilight =>
    { name := "Lumina Twilight"
      tagline := "The deep blue of the last light of the day"
      inspirations := "Fading light, peaceful evenings, blue hour, tranquility, rest"
      bgHue := 242, bgSat := 40, bgLight := 12
      muted := ⟨0, 85, 75, 55⟩
      balanced := ⟨0, 90, 65, 55⟩
      bold := ⟨0, 95, 55, 60⟩ }
  | .dawn =>
    { name := "Lumina Dawn"
      tagline := "The warm pink and gold of sunrise"
      inspirations := "Sunrise, new beginnings, opportunity, hope, fresh starts, awakening"
      bgHue := 345, bgSat := 45, bgLight := 15
      muted := ⟨15, 85, 75, 55⟩
      balanced := ⟨15, 95, 60, 55⟩
      bold := ⟨15, 100, 50, 60⟩ }
  | .noon =>
    { name := "Lumina Noon"
      tagline := "Golden sunshine and natural warmth"
      inspirations := "Golden hour, warm days, contentment, beach afternoons, lazy picnics, comfort"
      bgHue := 50, bgSat := 100, bgLight := 98
      muted := ⟨-15, 85, 60, 50⟩
      balanced := ⟨-15, 90, 50, 40⟩
      bold := ⟨-15, 95, 40, 30⟩ }

/-- The flavor variant of a preset selected by a flavor key. -/
def flavorOf (d : ThemeData) : FlavorKey → FlavorParams
  | .muted => d.muted
  | .balanced => d.balanced
  | .bold => d.bold

/-- Modelled from the spec: selecting a preset and flavor copies its
base and flavor parameters into the live ThemeParameters (spec §3; the
theme manager performing the copy is not under `src/`). -/
def selectPreset (t : ThemeKey) (f : FlavorKey) : ThemeParameters :=
  { bgHue := (RAW_THEME_DATA t).bgHue
    bgSat := (RAW_THEME_DATA t).bgSat
    bgLight := (RAW_THEME_DATA t).bgLight
    accentHue := (flavorOf (RAW_THEME_DATA t) f).accentHue
    accentSat := (flavorOf (RAW_THEME_DATA t) f).accentSat
    accentLight := (flavorOf (RAW_THEME_DATA t) f).accentLight
    commentLight := (flavorOf (RAW_THEME_DATA t) f).commentLight }

/-! ## Slider configuration (`SLIDER_CONFIGS` of `src/src/constants/index.ts`) -/

/-- One slider configuration row. -/
structure SliderConfig where
  label : String
  key : String
  min : ℤ
  max : ℤ
  type : String
deriving DecidableEq

def bgHueConfig : SliderConfig := ⟨"Background Hue", "bgHue", 0, 360, "hue"⟩

def bgSatConfig : SliderConfig := ⟨"Background Saturation", "bgSat", 0, 100, "saturation"⟩

def bgLightConfig : SliderConfig := ⟨"Background Lightness", "bgLight", 0, 100, "lightness"⟩

def accentHueConfig : SliderConfig := ⟨"Accent Hue Adjustment", "accentHue", -180, 180, "hue"⟩

def accentSatConfig : SliderConfig := ⟨"Accent Saturation", "accentSat", 0, 100, "saturation"⟩

def accentLightConfig : SliderConfig := ⟨"Accent Lightness", "accentLight", 0, 100, "lightness"⟩

def commentLightConfig : SliderConfig := ⟨"Comment Lightness", "commentLight", 0, 100, "lightness"⟩

/-- `SLIDER_CONFIGS` of `src/src/constants/index.ts` (lines 233–247). -/
def SLIDER_CONFIGS : List (String × List SliderConfig) :=
  [("main", [bgHueConfig, bgSatConfig, bgLightConfig]),
   ("accent", [accentHueConfig, accentSatConfig, accentLightConfig]),
   ("comment", [commentLightConfig])]

/-- A slider admits a value when it lies between the configured
`min` and `max`. -/
def admits (c : SliderConfig) (v : ℤ) : Prop := c.min ≤ v ∧ v ≤ c.max

/-! ## Syntax preview code examples
(`src/src/components/SyntaxHighlighter.tsx`) -/

/-- The `javascript` entry of `CODE_EXAMPLES` in
`src/src/components/SyntaxHighlighter.tsx`. -/
def javascriptExample : String :=
  "// React Hook with State Management\nimport \x7b useState, useEffect \x7d from \x27react\x27\n\nconst useCounter = (initialValue = 0) => \x7b\n  const [count, setCount] = useState(initialValue)\n  const [error, setError] = useState(null)\n\n  const increment = () => \x7b\n    try \x7b\n      setCount(prev => prev + 1)\n      setError(null) // Clear any previous errors\n    \x7d catch (err) \x7b\n      setError(\x27Failed to increment\x27)\n    \x7d\n  \x7d\n\n  useEffect(() => \x7b\n    console.log(`Count: $\x7bcount\x7d`)\n    if (count > 100) \x7b\n      console.warn(\x27Count is getting high!\x27)\n    \x7d\n  \x7d, [count])\n\n  return \x7b count, increment, error \x7d\n\x7d"

/-- The `python` entry of `CODE_EXAMPLES` in
`src/src/components/SyntaxHighlighter.tsx`. -/
def pythonExample : String :=
  "# Data Processing Pipeline\nimport pandas as pd\nfrom typing import List, Optional\n\nclass DataProcessor:\n    def __init__(self, threshold: float = 0.5):\n        self.threshold = threshold\n        self.errors = []\n\n    def process(self, data: List[dict]) -> pd.DataFrame:\n        \"\"\"Filter and process data.\"\"\"\n        try:\n            df = pd.DataFrame(data)\n            # Filter by threshold\n            filtered = df[df[\x27score\x27] > self.threshold]\n            print(f\"Processed \x7blen(filtered)\x7d records\")\n            return filtered\n        except ValueError as e:\n            self.errors.append(str(e))\n            raise Exception(\"Processing failed\")"

/-- The `cpp` entry of `CODE_EXAMPLES` in
`src/src/components/SyntaxHighlighter.tsx`. -/
def cppExample : String :=
  "// Modern C++ with Smart Pointers\n#include <memory>\n#include <vector>\n#include <iostream>\n\ntemplate<typename T>\nclass Container \x7b\nprivate:\n    std::vector<std::unique_ptr<T>> data_;\n    bool debug_mode = false;\n\npublic:\n    void add(T&& item) \x7b\n        data_.push_back(std::make_unique<T>(std::move(item)));\n        if (debug_mode) \x7b\n            std::cout << \"Added item, size: \" << size() << std::endl;\n        \x7d\n    \x7d\n\n    void clear() \x7b\n        data_.clear();\n        std::cerr << \"Container cleared!\" << std::endl;\n    \x7d\n\n    size_t size() const \x7b return data_.size(); \x7d\n\x7d;"

/-- The `terminal` entry of `CODE_EXAMPLES` in
`src/src/components/SyntaxHighlighter.tsx`. -/
def terminalExample : String :=
  "❯ git status\nOn branch main\nChanges not staged for commit:\n  modified: src/components/ThemeGenerator.tsx\n  deleted:  old_config.json\n\nUntracked files:\n  new_feature.rs\n\n❯ npm run build\n✓ Build successful in 2.3s\n⚠ 2 warnings found\n\n❯ git add . && git commit -m \"Add new theme system\"\n[main abc123] Add new theme system\n 3 files changed, 150 insertions(+), 50 deletions(-)\n\n❯ cargo test\nerror: compilation failed\nthread \x27main\x27 panicked at src/lib.rs:42"

/-- `CODE_EXAMPLES` of `src/src/components/SyntaxHighlighter.tsx`
(lines 58–153), as a key-to-example association list. -/
def CODE_EXAMPLES : List (String × String) :=
  [("javascript", javascriptExample), ("python", pythonExample),
   ("cpp", cppExample), ("terminal", terminalExample)]

/-- Lookup of a language key in `CODE_EXAMPLES`. -/
def lookupExample (language : String) : Option String :=
  CODE_EXAMPLES.lookup language

/-- The code example selected by `SyntaxPreview`
(`src/src/components/SyntaxHighlighter.tsx` line 182):
`CODE_EXAMPLES[language] || CODE_EXAMPLES.javascript` — an absent (or
falsy) entry falls back to the JavaScript example. -/
def selectedCode (language : String) : String :=
  match lookupExample language with
  | some s => if s = "" then javascriptExample else s
  | none => javascriptExample

/-! ## Concrete evaluations of the conversion -/

theorem hslToRgb_red_dim : hslToRgb 0 70 50 = "#d92626" := by
  norm_num [hslToRgb, hslChannels, hslC, hslX, hslM, hslHp, unit01, clamp,
    normHue, byteOf, jsRound, hexByte, abs_of_nonneg, abs_of_nonpos] <;> decide

theorem hslToRgb_gray : hslToRgb 0 0 50 = "#808080" := by
  norm_num [hslToRgb, hslChannels, hslC, hslX, hslM, hslHp, unit01, clamp,
    normHue, byteOf, jsRound, hexByte, abs_of_nonneg, abs_of_nonpos] <;> decide

theorem hslToRgb_azure : hslToRgb 200 80 50 = "#1aa2e6" := by
  norm_num [hslToRgb, hslChannels, hslC, hslX, hslM, hslHp, unit01, clamp,
    normHue, byteOf, jsRound, hexByte, abs_of_nonneg, abs_of_nonpos] <;> decide

theorem hslToRgb_vermilion : hslToRgb 10 80 50 = "#e63c1a" := by
  norm_num [hslToRgb, hslChannels, hslC, hslX, hslM, hslHp, unit01, clamp,
    normHue, byteOf, jsRound, hexByte, abs_of_nonneg, abs_of_nonpos] <;> decide

/-- The conversion is invariant under pre-normalizing its inputs. -/
theorem hslChannels_normalized (h s l : ℚ) :
    hslChannels (normHue h) (clamp 0 100 s) (clamp 0 100 l) = hslChannels h s l := by
  have e2 : hslHp (normHue h) = hslHp h := by
    unfold hslHp
    rw [normHue_idem]
  have e1 : hslC (clamp 0 100 s) (clamp 0 100 l) = hslC s l := by
    unfold hslC
    rw [unit01_clamp, unit01_clamp]
  have e3 : hslX (normHue h) (clamp 0 100 s) (clamp 0 100 l) = hslX h s l := by
    unfold hslX
    rw [e1, e2]
  have e4 : hslM (clamp 0 100 s) (clamp 0 100 l) = hslM s l := by
    unfold hslM
    rw [unit01_clamp, e1]
  unfold hslChannels
  rw [e1, e2, e3, e4]

/-! ## Claim theorems -/

/-- C4: The HSL-to-RGB conversion maps the fixed points exactly:
`(0,100,50) ↦ "#ff0000"`, `(120,100,50) ↦ "#00ff00"`,
`(0,0,0) ↦ "#000000"`, `(0,0,100) ↦ "#ffffff"`. -/
theorem hslToRgb_fixed_points :
    hslToRgb 0 100 50 = "#ff0000" ∧ hslToRgb 120 100 50 = "#00ff00" ∧
    hslToRgb 0 0 0 = "#000000" ∧ hslToRgb 0 0 100 = "#ffffff" := by
  refine ⟨?_, ?_, ?_, ?_⟩ <;>
    norm_num [hslToRgb, hslChannels, hslC, hslX, hslM, hslHp, unit01, clamp,
      normHue, byteOf, jsRound, hexByte, abs_of_nonneg, abs_of_nonpos] <;> decide

/-- C8: The HSL-to-RGB conversion is total and never rejects input: on
every rational triple it agrees with itself applied to the hue
normalized modulo 360 and saturation/lightness clamped to `[0,100]`,
and it returns a valid hex string on every input. -/
theorem hslToRgb_total_normalizing (h s l : ℚ) :
    hslToRgb h s l = hslToRgb (normHue h) (clamp 0 100 s) (clamp 0 100 l) ∧
    isValidHexColor (hslToRgb h s l) = true := by
  refine ⟨?_, hslToRgb_valid h s l⟩
  unfold hslToRgb
  rw [hslChannels_normalized]

/-- C6: Selecting the preset `midnight` with flavor `bold` copies
exactly `bgHue=270, bgSat=25, bgLight=6, accentHue=0, accentSat=100,
accentLight=50, commentLight=60` into the live ThemeParameters. -/
theorem selectPreset_midnight_bold :
    selectPreset .midnight .bold =
      { bgHue := 270, bgSat := 25, bgLight := 6, accentHue := 0,
        accentSat := 100, accentLight := 50, commentLight := 60 } := rfl

/-- C1: For every valid parameter set, the derived palette has exactly
the 24 slots `base00`–`base17` (the keys of `COLOR_GROUPS`), each bound
to a valid hex color string, none left undefined. -/
theorem derivePalette_covers_all_slots (p : ThemeParameters) (hv : ValidParams p) :
    (derivePalette p).map Prod.fst = allSlots ∧
    allSlots.map slotKey = (COLOR_GROUPS.map (fun g => g.2.map Prod.fst)).flatten ∧
    allSlots.length = 24 ∧ allSlots.Nodup ∧
    ∀ pr ∈ derivePalette p, isValidHexColor pr.2 = true := by
  refine ⟨rfl, by decide, by decide, by decide, ?_⟩
  · intro pr hpr
    simp only [derivePalette, List.mem_map] at hpr
    obtain ⟨s, _, rfl⟩ := hpr
    exact hslToRgb_valid _ _ _

theorem derivePalette_covers_all_slots_witness :
    ValidParams (selectPreset .midnight .bold) ∧
    (derivePalette (selectPreset .midnight .bold)).map Prod.fst = allSlots :=
  ⟨by decide, (derivePalette_covers_all_slots _ (by decide)).1⟩

/-- C2: The palette derivation is deterministic and has no ordering
dependency between slots: repeated calls agree, and over any slot order
the looked-up color of a slot equals the independently computed
`paletteColor`, which depends only on the parameters and the slot. -/
theorem derivePalette_deterministic (p : ThemeParameters) :
    derivePalette p = derivePalette p ∧
    ∀ (order : List PaletteSlot) (s : PaletteSlot), s ∈ order →
      (derivePaletteOn order p).lookup s = some (paletteColor p s) := by
  refine ⟨rfl, ?_⟩
  intro order s hmem
  induction order with
  | nil => exact absurd hmem (List.not_mem_nil s)
  | cons a t ih =>
    by_cases hsa : s = a
    · subst hsa
      simp [derivePaletteOn, List.lookup]
    · rcases List.mem_cons.mp hmem with h1 | h1
      · exact absurd h1 hsa
      · have hbeq : (s == a) = false := beq_eq_false_iff_ne.mpr hsa
        simpa [derivePaletteOn, List.lookup, hbeq] using ih h1

theorem derivePalette_deterministic_witness :
    (derivePaletteOn [.base05] (selectPreset .midnight .bold)).lookup .base05 =
      some (paletteColor (selectPreset .midnight .bold) .base05) :=
  (derivePalette_deterministic _).2 [.base05] .base05 (List.Mem.head _)

/-- C3: Increasing `accentHue` by an offset `d` rotates the hue of every
accent slot (`base08`–`base17`) by `d` modulo 360 and leaves the hue of
every background/text slot (`base00`–`base07`) unchanged; each palette
entry is the hex rendering of its slot HSL. -/
theorem accentHue_offset_rotates_accents (p : ThemeParameters) (d : ℚ)
    (hv : ValidParams p) :
    (∀ s : PaletteSlot, isAccentSlot s = true →
      (slotHSL { p with accentHue := p.accentHue + d } s).1 =
        normHue ((slotHSL p s).1 + d)) ∧
    (∀ s : PaletteSlot, isAccentSlot s = false →
      (slotHSL { p with accentHue := p.accentHue + d } s).1 = (slotHSL p s).1) ∧
    (∀ s, paletteColor p s =
      hslToRgb (slotHSL p s).1 (slotHSL p s).2.1 (slotHSL p s).2.2) := by
  refine ⟨?_, ?_, fun s => rfl⟩
  · intro s hs
    cases s <;> first
      | exact absurd hs (by decide)
      | (simp only [slotHSL]
         rw [normHue_normHue_add]
         congr 1
         ring)
  · intro s hs
    cases s <;> first
      | exact absurd hs (by decide)
      | rfl

theorem accentHue_offset_rotates_accents_witness :
    ValidParams (selectPreset .midnight .bold) ∧
    (slotHSL { selectPreset .midnight .bold with
        accentHue := (selectPreset .midnight .bold).accentHue + 40 } .base08).1 =
      normHue ((slotHSL (selectPreset .midnight .bold) .base08).1 + 40) :=
  ⟨by decide, (accentHue_offset_rotates_accents _ 40 (by decide)).1 .base08 rfl⟩

/-- C5 counterexample: at the valid parameter set with every field 0
(in particular `accentSat = 0`), the accentLight gradient is NOT
evaluated at the current `accentSat`: the code falls back to saturation
70 (`params.accentSat || 70`), so the claim as stated fails. -/
theorem accentLight_gradient_not_current_sat :
    ValidParams ⟨0, 0, 0, 0, 0, 0, 0⟩ ∧
    sliderGradientAccentLight ⟨0, 0, 0, 0, 0, 0, 0⟩ ≠
      generateLightnessGradient (normHue (0 + 0)) 0 := by
  refine ⟨by decide, ?_⟩
  have e1 : sliderGradientAccentLight ⟨0, 0, 0, 0, 0, 0, 0⟩ =
      generateLightnessGradient 0 70 := by
    norm_num [sliderGradientAccentLight, jsOr, jsMod, jsTrunc]
  have e2 : normHue ((0:ℚ) + 0) = 0 := by
    norm_num [normHue]
  rw [e1, e2]
  intro heq
  simp only [generateLightnessGradient, lightnessSteps, List.map_cons, List.map_nil,
    List.cons.injEq, and_true] at heq
  obtain ⟨-, -, -, -, -, h50, -⟩ := heq
  rw [hslToRgb_red_dim, hslToRgb_gray] at h50
  exact absurd h50 (by decide)

/-- C5 (amended): for every valid parameter set whose `accentSat` is
nonzero, the accentLight gradient is evaluated at the current accent hue
(`(0 + accentHue + 360) % 360`) and the current `accentSat`; a zero
`accentSat` falls back to saturation 70.  In particular the call with
`accentHue=200, accentSat=80` differs from `accentHue=10, accentSat=80`. -/
theorem accentLight_gradient_uses_current_params :
    (∀ p : ThemeParameters, ValidParams p → p.accentSat ≠ 0 →
      sliderGradientAccentLight p =
        generateLightnessGradient (normHue (0 + p.accentHue)) p.accentSat) ∧
    sliderGradientAccentLight ⟨0, 0, 0, 200, 80, 0, 0⟩ ≠
      sliderGradientAccentLight ⟨0, 0, 0, 10, 80, 0, 0⟩ := by
  constructor
  · intro p hv hs
    obtain ⟨-, -, -, -, -, -, ha1, ha2, -⟩ := hv
    unfold sliderGradientAccentLight
    have h1 : jsOr p.accentHue 0 = p.accentHue := by
      unfold jsOr
      split_ifs with h
      · exact h.symm
      · rfl
    have h2 : jsOr p.accentSat 70 = p.accentSat := by
      unfold jsOr
      rw [if_neg hs]
    rw [h1, h2]
    congr 1
    rw [jsMod_eq_normHue (by linarith)]
    have e : (0:ℚ) + p.accentHue + 360 = (0 + p.accentHue) + 360 * ((1:ℤ):ℚ) := by
      push_cast
      ring
    rw [e, normHue_add_intMul]
  · have e1 : sliderGradientAccentLight ⟨0, 0, 0, 200, 80, 0, 0⟩ =
        generateLightnessGradient 200 80 := by
      norm_num [sliderGradientAccentLight, jsOr, jsMod, jsTrunc]
    have e2 : sliderGradientAccentLight ⟨0, 0, 0, 10, 80, 0, 0⟩ =
        generateLightnessGradient 10 80 := by
      norm_num [sliderGradientAccentLight, jsOr, jsMod, jsTrunc]
    rw [e1, e2]
    intro heq
    simp only [generateLightnessGradient, lightnessSteps, List.map_cons, List.map_nil,
      List.cons.injEq, and_true] at heq
    obtain ⟨-, -, -, -, -, h50, -⟩ := heq
    rw [hslToRgb_azure, hslToRgb_vermilion] at h50
    exact absurd h50 (by decide)

theorem accentLight_gradient_uses_current_params_witness :
    sliderGradientAccentLight ⟨0, 0, 0, 0, 80, 0, 0⟩ =
      generateLightnessGradient (normHue (0 + 0)) 80 :=
  accentLight_gradient_uses_current_params.1 ⟨0, 0, 0, 0, 80, 0, 0⟩
    (by decide) (by decide)

/-- C7 counterexample: the bgHue slider (min 0, max 360 in
`SLIDER_CONFIGS`) admits the value 360, which is not in `[0,360)`, so
the claim as stated fails. -/
theorem bgHue_slider_admits_360 :
    admits bgHueConfig 360 ∧ ¬ ((0:ℤ) ≤ 360 ∧ (360:ℤ) < 360) := by
  constructor
  · exact ⟨by decide, by decide⟩
  · intro h
    exact absurd h.2 (by decide)

/-- C7 (amended): every slider configuration constrains its parameter
to its documented bound with a closed upper end for `bgHue`: the bgHue
slider admits exactly `[0,360]`, every saturation and lightness slider
admits exactly `[0,100]`, and the accentHue slider admits exactly
`[-180,180]`; these seven configurations are exactly the rows of
`SLIDER_CONFIGS`. -/
theorem sliders_admit_documented_ranges (v : ℤ) :
    (admits bgHueConfig v ↔ 0 ≤ v ∧ v ≤ 360) ∧
    (admits bgSatConfig v ↔ 0 ≤ v ∧ v ≤ 100) ∧
    (admits bgLightConfig v ↔ 0 ≤ v ∧ v ≤ 100) ∧
    (admits accentHueConfig v ↔ -180 ≤ v ∧ v ≤ 180) ∧
    (admits accentSatConfig v ↔ 0 ≤ v ∧ v ≤ 100) ∧
    (admits accentLightConfig v ↔ 0 ≤ v ∧ v ≤ 100) ∧
    (admits commentLightConfig v ↔ 0 ≤ v ∧ v ≤ 100) ∧
    SLIDER_CONFIGS = [("main", [bgHueConfig, bgSatConfig, bgLightConfig]),
      ("accent", [accentHueConfig, accentSatConfig, accentLightConfig]),
      ("comment", [commentLightConfig])] :=
  ⟨Iff.rfl, Iff.rfl, Iff.rfl, Iff.rfl, Iff.rfl, Iff.rfl, Iff.rfl, rfl⟩

/-- C9: For every language key, the syntax preview selects the default
JavaScript code example when the key has no entry in `CODE_EXAMPLES`,
and the key's own example when it has one. -/
theorem syntaxPreview_language_fallback (language : String) :
    (lookupExample language = none → selectedCode language = javascriptExample) ∧
    (∀ s, lookupExample language = some s → selectedCode language = s) := by
  constructor
  · intro h
    unfold selectedCode
    rw [h]
  · intro s hs
    have hne : s ≠ "" := by
      unfold lookupExample CODE_EXAMPLES at hs
      simp only [List.lookup] at hs
      split at hs
      · cases hs
        decide
      · split at hs
        · cases hs
          decide
        · split at hs
          · cases hs
            decide
          · split at hs
            · cases hs
              decide
            · cases hs
    unfold selectedCode
    rw [hs]
    show (if s = "" then javascriptExample else s) = s
    rw [if_neg hne]

theorem syntaxPreview_language_fallback_witness :
    selectedCode "rust" = javascriptExample ∧ selectedCode "python" = pythonExample :=
  ⟨(syntaxPreview_language_fallback "rust").1 rfl,
   (syntaxPreview_language_fallback "python").2 pythonExample rfl⟩

/-- C10: For every parameter set whose `bgHue` is in the documented
range `[0,360)`, the commentLight gradient is the lightness gradient at
saturation 15 and at hue `bgHue` rotated by 180° modulo 360 when
`bgLight > 50`, and at `bgHue` itself when `bgLight ≤ 50`. -/
theorem commentLight_gradient_hue_rule (p : ThemeParameters)
    (h0 : 0 ≤ p.bgHue) (h1 : p.bgHue < 360) :
    (50 < p.bgLight → sliderGradientCommentLight p =
      generateLightnessGradient (normHue (p.bgHue + 180)) 15) ∧
    (p.bgLight ≤ 50 → sliderGradientCommentLight p =
      generateLightnessGradient p.bgHue 15) := by
  have hbg : jsOr p.bgHue 0 = p.bgHue := by
    unfold jsOr
    split_ifs with h
    · exact h.symm
    · rfl
  constructor
  · intro hl
    have hcond : 50 < jsOr p.bgLight 50 := by
      unfold jsOr
      split_ifs with h
      · rw [h] at hl
        linarith
      · exact hl
    unfold sliderGradientCommentLight
    rw [hbg, if_pos hcond]
    congr 1
    rw [jsMod_eq_normHue (by linarith)]
    have e : p.bgHue + 180 + 360 = (p.bgHue + 180) + 360 * ((1:ℤ):ℚ) := by
      push_cast
      ring
    rw [e, normHue_add_intMul]
  · intro hl
    have hcond : ¬ 50 < jsOr p.bgLight 50 := by
      unfold jsOr
      split_ifs with h
      · norm_num
      · linarith
    unfold sliderGradientCommentLight
    rw [hbg, if_neg hcond]
    congr 1
    rw [jsMod_eq_normHue (by linarith)]
    have e : p.bgHue + 0 + 360 = p.bgHue + 360 * ((1:ℤ):ℚ) := by
      push_cast
      ring
    rw [e, normHue_add_intMul, normHue_eq_self h0 h1]

theorem commentLight_gradient_hue_rule_witness :
    sliderGradientCommentLight (selectPreset .midnight .bold) =
      generateLightnessGradient (selectPreset .midnight .bold).bgHue 15 :=
  (commentLight_gradient_hue_rule _ (by decide) (by decide)).2 (by decide)

end Lumina
